import Mathlib

/-
Verification of the rssreader-client library (src/rssreader/).

Shallow embedding: Python dictionaries coming from JSON responses are
modelled by an inductive JSON type; a Python dict is a list of
key/value pairs with distinct keys, and dict.get is first-match lookup
with a default.  Python None is identified with JSON.null (json.loads
maps null to None).  Fallible Python code (code that can raise) is
embedded in the Except monad; code that cannot raise is embedded as a
total function.  Machine integers are Lean Int (Python ints are
unbounded, so no wrap-around modelling is needed).
-/

namespace RSSReader

/-- Untyped JSON value, the payload type flowing through the client. -/
inductive JSON where
  | null : JSON
  | bool (b : Bool) : JSON
  | num (n : Int) : JSON
  | str (s : String) : JSON
  | arr (elems : List JSON) : JSON
  | obj (fields : List (String × JSON)) : JSON
deriving Repr

/-- First pair with the given key, if any (Python dict membership/lookup;
a Python dict has unique keys, so first-match is exact). -/
def dictFind (data : List (String × JSON)) (k : String) : Option JSON :=
  (data.find? (fun kv => kv.1 == k)).map (fun kv => kv.2)

/-- Python dict.get(k, dflt). -/
def dictGet (data : List (String × JSON)) (k : String) (dflt : JSON) : JSON :=
  (dictFind data k).getD dflt

/-- Python truthiness of a JSON-decoded value: None, False, 0, "", [], {}
are falsy, everything else truthy. -/
def pyFalsy : JSON → Bool
  | .null => true
  | .bool b => !b
  | .num n => n == 0
  | .str s => s == ""
  | .arr elems => elems.isEmpty
  | .obj fields => fields.isEmpty

def pyTruthy (j : JSON) : Bool := !pyFalsy j

/-- Whether a JSON value is an object (a Python dict, on which .get is legal). -/
def JSON.isObjB : JSON → Bool
  | .obj _ => true
  | _ => false

/-- Remove every pair with the given key (used to state that decoders
never fail because a key is absent). -/
def eraseKey (data : List (String × JSON)) (k : String) : List (String × JSON) :=
  data.filter (fun kv => !(kv.1 == k))

/- ------------------------------------------------------------------ -/
/- models.py: Category, Feed, Entry, Pagination, SystemStatus, TaskStatus -/
/- ------------------------------------------------------------------ -/

/-- models.py Category: fields hold whatever the dynamic dict lookup produced. -/
structure Category where
  id : JSON
  title : JSON
  feed_count : JSON
deriving Repr

/-- models.py Category.from_dict. -/
def Category.from_dict (data : List (String × JSON)) : Category :=
  { id := dictGet data "id" .null
    title := dictGet data "title" .null
    feed_count := dictGet data "feed_count" (.num 0) }

/-- models.py Feed. -/
structure Feed where
  id : JSON
  title : JSON
  site_url : JSON
  feed_url : JSON
  category : JSON
  checked_at : JSON
  disabled : JSON
  parsing_error_count : JSON
  entry_count : JSON
deriving Repr

/-- models.py Feed.from_dict. -/
def Feed.from_dict (data : List (String × JSON)) : Feed :=
  { id := dictGet data "id" .null
    title := dictGet data "title" .null
    site_url := dictGet data "site_url" .null
    feed_url := dictGet data "feed_url" .null
    category := dictGet data "category" .null
    checked_at := dictGet data "checked_at" .null
    disabled := dictGet data "disabled" (.bool false)
    parsing_error_count := dictGet data "parsing_error_count" (.num 0)
    entry_count := dictGet data "entry_count" (.num 0) }

/-- models.py Entry. -/
structure Entry where
  id : JSON
  feed_id : JSON
  title : JSON
  url : JSON
  published_at : JSON
  created_at : JSON
  author : JSON
  feed : JSON
  content : JSON
  media : JSON
deriving Repr

/-- models.py Entry.from_dict. -/
def Entry.from_dict (data : List (String × JSON)) : Entry :=
  { id := dictGet data "id" .null
    feed_id := dictGet data "feed_id" .null
    title := dictGet data "title" .null
    url := dictGet data "url" .null
    published_at := dictGet data "published_at" .null
    created_at := dictGet data "created_at" .null
    author := dictGet data "author" .null
    feed := dictGet data "feed" (.obj [])
    content := dictGet data "content" .null
    media := dictGet data "media" .null }

/-- models.py Pagination. -/
structure Pagination where
  page : JSON
  per_page : JSON
  total : JSON
  pages : JSON
  has_next : JSON
  has_prev : JSON
deriving Repr

/-- models.py Pagination.from_dict. -/
def Pagination.from_dict (data : List (String × JSON)) : Pagination :=
  { page := dictGet data "page" (.num 1)
    per_page := dictGet data "per_page" (.num 50)
    total := dictGet data "total" (.num 0)
    pages := dictGet data "pages" (.num 1)
    has_next := dictGet data "has_next" (.bool false)
    has_prev := dictGet data "has_prev" (.bool false) }

/-- Python expression j.get(k, dflt) where j may not be a dict: raises
AttributeError (embedded as .error) unless j is an object. -/
def pyAttrGet (j : JSON) (k : String) (dflt : JSON) : Except String JSON :=
  match j with
  | .obj fields => .ok (dictGet fields k dflt)
  | _ => .error "AttributeError"

/-- models.py SystemStatus. -/
structure SystemStatus where
  feed_count : JSON
  category_count : JSON
  entry_count : JSON
  latest_checked : JSON
  latest_entry : JSON
  update_interval : JSON
deriving Repr

/-- models.py SystemStatus.from_dict: nested lookups such as
data.get('feeds', \x7b\x7d).get('total', 0) raise if the present value
under 'feeds' is not a dict; evaluation order follows the source. -/
def SystemStatus.from_dict (data : List (String × JSON)) : Except String SystemStatus := do
  let fc ← pyAttrGet (dictGet data "feeds" (.obj [])) "total" (.num 0)
  let cc ← pyAttrGet (dictGet data "categories" (.obj [])) "total" (.num 0)
  let ec ← pyAttrGet (dictGet data "entries" (.obj [])) "total" (.num 0)
  let lc ← pyAttrGet (dictGet data "feeds" (.obj [])) "latest_checked" .null
  let le ← pyAttrGet (dictGet data "entries" (.obj [])) "latest" .null
  .ok { feed_count := fc, category_count := cc, entry_count := ec,
        latest_checked := lc, latest_entry := le,
        update_interval := dictGet data "update_interval" (.num 0) }

/- ---------------------- TaskStatus.from_dict ---------------------- -/

/-- Python key.split(sep) on the character list of the key: all pieces
between separator occurrences, empty pieces included. -/
def splitChars (sep : Char) : List Char → List (List Char)
  | [] => [[]]
  | c :: cs =>
    match splitChars sep cs with
    | [] => [[]]
    | g :: gs => if c = sep then [] :: g :: gs else (c :: g) :: gs

/-- Python key.startswith(p). -/
def strStartsWith (s p : String) : Bool :=
  p.data.isPrefixOf s.data

/-- ASCII decimal digit test for the int() model. -/
def isAsciiDigit (c : Char) : Bool :=
  '0' ≤ c && c ≤ '9'

/-- Whitespace stripped by Python int() around the number (ASCII subset). -/
def isPySpace (c : Char) : Bool :=
  c = ' ' || c = '\t' || c = '\n' || c = '\r'

/-- Digit run to a natural number; none when empty or a non-digit occurs. -/
def digitsToNat (ds : List Char) : Option Nat :=
  if ds.isEmpty then none
  else if ds.all isAsciiDigit then
    some (ds.foldl (fun a c => a * 10 + (c.toNat - '0'.toNat)) 0)
  else none

/-- Python int(s) on a string: optional surrounding whitespace, optional
single sign, then a nonempty digit run; anything else raises ValueError
(embedded as none).  Underscore digit grouping cannot occur here because
the argument is an underscore-free segment of key.split. -/
def pyInt (s : String) : Option Int :=
  let core := ((s.data.dropWhile isPySpace).reverse.dropWhile isPySpace).reverse
  match core with
  | '+' :: ds => (digitsToNat ds).map Int.ofNat
  | '-' :: ds => (digitsToNat ds).map (fun n => -(Int.ofNat n))
  | ds => (digitsToNat ds).map Int.ofNat

/-- models.py TaskStatus. -/
structure TaskStatus where
  feed_tasks : List (Int × JSON)
  all_feeds_running : JSON
deriving Repr

/-- Python dict assignment feed_tasks[k] = v: overwrite in place if the
key exists, else append. -/
def dictSetInt (d : List (Int × JSON)) (k : Int) (v : JSON) : List (Int × JSON) :=
  if d.any (fun kv => kv.1 == k) then
    d.map (fun kv => if kv.1 == k then (k, v) else kv)
  else d ++ [(k, v)]

/-- Loop body of TaskStatus.from_dict, iterating the input pairs in order
with the accumulated feed_tasks dict and all_feeds_running flag.
int(key.split('_')[1]) failing with IndexError or ValueError is caught
and skips the pair; task.get('running', False) on a non-dict value
raises AttributeError, which is not caught. -/
def taskAux : List (String × JSON) → List (Int × JSON) → JSON →
    Except String (List (Int × JSON) × JSON)
  | [], ft, af => .ok (ft, af)
  | (k, v) :: rest, ft, af =>
    if k == "all_feeds" then
      match v with
      | .obj fields => taskAux rest ft (dictGet fields "running" (.bool false))
      | _ => .error "AttributeError"
    else if strStartsWith k "feed_" then
      match (splitChars '_' k.data)[1]? with
      | none => taskAux rest ft af
      | some seg =>
        match pyInt (String.mk seg) with
        | none => taskAux rest ft af
        | some fid =>
          match v with
          | .obj fields => taskAux rest (dictSetInt ft fid (dictGet fields "running" (.bool false))) af
          | _ => .error "AttributeError"
    else taskAux rest ft af

/-- models.py TaskStatus.from_dict. -/
def TaskStatus.from_dict (data : List (String × JSON)) : Except String TaskStatus :=
  (taskAux data [] (.bool false)).map (fun r => { feed_tasks := r.1, all_feeds_running := r.2 })

/- ------------------- Entry.published_datetime -------------------- -/

/-- Python s.replace(c, rep) for a one-character pattern: every
occurrence of c is replaced, wherever it stands in the string. -/
def replaceCharList (c : Char) (rep : List Char) : List Char → List Char
  | [] => []
  | x :: xs =>
    if x = c then rep ++ replaceCharList c rep xs
    else x :: replaceCharList c rep xs

/-- Python s.replace('Z', rep) (single-character pattern). -/
def pyReplaceChar (s : String) (c : Char) (rep : String) : String :=
  String.mk (replaceCharList c rep.data s.data)

/-- Result of datetime.fromisoformat: the parsed calendar fields plus an
optional fixed UTC offset in minutes.  Sub-second precision is not
modelled (no claim exercises fractional seconds). -/
structure PyDatetime where
  year : Nat
  month : Nat
  day : Nat
  hour : Nat
  minute : Nat
  second : Nat
  tzOffsetMinutes : Option Int
deriving Repr, DecidableEq

/-- Read exactly n ASCII digits from the front, accumulating their value. -/
def takeDigitsAux : Nat → Nat → List Char → Option (Nat × List Char)
  | 0, acc, cs => some (acc, cs)
  | n + 1, acc, c :: cs =>
    if isAsciiDigit c then takeDigitsAux n (acc * 10 + (c.toNat - '0'.toNat)) cs
    else none
  | _ + 1, _, [] => none

def takeDigits (n : Nat) (cs : List Char) : Option (Nat × List Char) :=
  takeDigitsAux n 0 cs

/-- Fixed-offset suffix [+-]HH:MM accepted by fromisoformat; empty input
means no offset.  The offset must be a valid time of day short of 24h. -/
def parseTzOffset : List Char → Option (Option Int)
  | [] => some none
  | '+' :: r => do
    let (hh, r1) ← takeDigits 2 r
    match r1 with
    | ':' :: r2 => do
      let (mm, r3) ← takeDigits 2 r2
      if r3.isEmpty && hh < 24 && mm < 60 then some (some (Int.ofNat (hh * 60 + mm))) else none
    | _ => none
  | '-' :: r => do
    let (hh, r1) ← takeDigits 2 r
    match r1 with
    | ':' :: r2 => do
      let (mm, r3) ← takeDigits 2 r2
      if r3.isEmpty && hh < 24 && mm < 60 then some (some (-(Int.ofNat (hh * 60 + mm)))) else none
    | _ => none
  | _ => none

/-- Time-of-day part HH[:MM[:SS]] followed by the optional offset. -/
def parseTimePart (r : List Char) : Option (Nat × Nat × Nat × Option Int) := do
  let (hh, r1) ← takeDigits 2 r
  if hh ≥ 24 then none else
  match r1 with
  | ':' :: r2 => do
    let (mm, r3) ← takeDigits 2 r2
    if mm ≥ 60 then none else
    match r3 with
    | ':' :: r4 => do
      let (ss, r5) ← takeDigits 2 r4
      if ss ≥ 60 then none else do
        let tz ← parseTzOffset r5
        some (hh, mm, ss, tz)
    | _ => do
      let tz ← parseTzOffset r3
      some (hh, mm, 0, tz)
  | _ => do
    let tz ← parseTzOffset r1
    some (hh, 0, 0, tz)

/-- Model of CPython datetime.fromisoformat on whole-second inputs:
YYYY-MM-DD, then optionally one separator character and
HH[:MM[:SS]][+-HH:MM].  Returns none where CPython raises ValueError. -/
def fromisoformatChars (cs : List Char) : Option PyDatetime := do
  let (y, r) ← takeDigits 4 cs
  match r with
  | '-' :: r1 => do
    let (mo, r2) ← takeDigits 2 r1
    if mo < 1 || 12 < mo then none else
    match r2 with
    | '-' :: r3 => do
      let (d, r4) ← takeDigits 2 r3
      if d < 1 || 31 < d then none else
      match r4 with
      | [] => some ⟨y, mo, d, 0, 0, 0, none⟩
      | _ :: r5 => do
        let (hh, mm, ss, tz) ← parseTimePart r5
        some ⟨y, mo, d, hh, mm, ss, tz⟩
    | _ => none
  | _ => none

def fromisoformat (s : String) : Option PyDatetime :=
  fromisoformatChars s.data

/-- models.py Entry.published_datetime: returns None when published_at is
falsy; otherwise replaces 'Z' with '+00:00' in the string and parses it
with fromisoformat.  A non-string truthy published_at raises
AttributeError at .replace; a parse failure raises ValueError. -/
def Entry.published_datetime (e : Entry) : Except String (Option PyDatetime) :=
  if pyFalsy e.published_at then .ok none
  else
    match e.published_at with
    | .str s =>
      match fromisoformat (pyReplaceChar s 'Z' "+00:00") with
      | some dt => .ok (some dt)
      | none => .error "ValueError"
    | _ => .error "AttributeError"

/- ------------------------------------------------------------------ -/
/- exceptions.py and client.py: the error taxonomy and _make_request  -/
/- ------------------------------------------------------------------ -/

/-- Exception value raised by the client.  The constructors other than
valueError model exceptions.py: rssReaderException is the taxonomy base
class RSSReaderException; apiError, authenticationError and
connectionError are its subclasses, each carrying its message (and the
status code for apiError).  valueError models the Python built-in
ValueError, which is not part of the taxonomy.  jsonDecodeError models
the JSON parse failure raised by response.json() on a body that is not
valid JSON outside the error-status branches, which the client does not
wrap. -/
inductive PyExc where
  | valueError (message : String)
  | rssReaderException (message : JSON)
  | apiError (status_code : Nat) (message : JSON)
  | authenticationError (message : JSON)
  | connectionError (message : String)
  | jsonDecodeError (message : String)
deriving Repr

/-- Whether an exception is the bare taxonomy root RSSReaderException. -/
def PyExc.isTaxonomyRoot : PyExc → Bool
  | .rssReaderException _ => true
  | _ => false

/-- Whether an exception is an APIError. -/
def PyExc.isApiError : PyExc → Bool
  | .apiError _ _ => true
  | _ => false

/-- exceptions.py APIError constructor: self.message = message or the
fallback string embedding the status code (Python or: the fallback is
used when the passed message is falsy). -/
def apiErrorInit (status_code : Nat) (message : Option JSON) : PyExc :=
  match message with
  | some m =>
    if pyFalsy m then
      .apiError status_code (.str ("API Error (Status code: " ++ toString status_code ++ ")"))
    else .apiError status_code m
  | none => .apiError status_code (.str ("API Error (Status code: " ++ toString status_code ++ ")"))

/-- Outcome of the underlying HTTP call in client.py: either a response
with a status code and a body (none when the body is not parseable as
JSON), or a transport failure raising a RequestException whose text is
the message. -/
inductive NetResult where
  | response (status : Nat) (body : Option JSON)
  | requestFailure (message : String)
deriving Repr

/-- Substring occurrence test on character lists (Python in on str). -/
def listInfix (p : List Char) : List Char → Bool
  | [] => p.isEmpty
  | c :: cs => p.isPrefixOf (c :: cs) || listInfix p cs

/-- Python membership test 'error' in error_data on a parsed JSON value:
key membership on a dict, element equality on a list, substring test on
a string; TypeError (embedded as none) on any other value. -/
def containsErrorKey : JSON → Option Bool
  | .obj fields => some (fields.any (fun kv => kv.1 == "error"))
  | .arr elems => some (elems.any (fun e =>
      match e with
      | .str s => s == "error"
      | _ => false))
  | .str s => some (listInfix "error".data s.data)
  | _ => none

/-- Python indexing error_data['error']: lookup on a dict; TypeError
(embedded as none) on anything else. -/
def getItemError : JSON → Option JSON
  | .obj fields => dictFind fields "error"
  | _ => none

/-- The message-extraction block of client.py _make_request: start from
the default, try to parse the body and read its 'error' entry, and keep
the default on any exception (the bare except swallows everything). -/
def extractErrorMsg (body : Option JSON) (dflt : JSON) : JSON :=
  match body with
  | none => dflt
  | some j =>
    match containsErrorKey j with
    | none => dflt
    | some false => dflt
    | some true =>
      match getItemError j with
      | some v => v
      | none => dflt

/-- HTTP methods accepted by _make_request. -/
def supportedMethod (m : String) : Bool :=
  m == "GET" || m == "POST" || m == "PUT" || m == "DELETE"

/-- client.py RSSClient._make_request, as a function of the method and the
outcome of the HTTP call.  An unsupported method raises ValueError before
any call is issued (the result does not depend on net).  raise_for_status
raises HTTPError exactly for statuses 400-599; 401 becomes
AuthenticationError, other 4xx/5xx become APIError via apiErrorInit; a
transport-level RequestException becomes ConnectionError; a successful
status returns the parsed body, and a body that is not valid JSON there
surfaces as the unwrapped JSON decode failure. -/
def make_request (method : String) (net : NetResult) : Except PyExc JSON :=
  if supportedMethod method then
    match net with
    | .requestFailure msg => .error (.connectionError ("Connection error: " ++ msg))
    | .response status body =>
      if 400 ≤ status ∧ status < 600 then
        if status = 401 then
          .error (.authenticationError
            (extractErrorMsg body (.str "Invalid API key or authentication required")))
        else
          .error (apiErrorInit status
            (some (extractErrorMsg body (.str ("HTTP Error: " ++ toString status)))))
      else
        match body with
        | some j => .ok j
        | none => .error (.jsonDecodeError "Expecting value")
  else
    .error (.valueError ("Unsupported HTTP method: " ++ method))

/-- client.py get_feeds query construction:
params = dict with category_id if category_id is truthy, else None. -/
def get_feeds_params (category_id : JSON) : Option (List (String × JSON)) :=
  if pyTruthy category_id then some [("category_id", category_id)] else none

/-- client.py get_entries query construction: page and per_page always,
category_id and feed_id added only when truthy, in insertion order. -/
def get_entries_params (page per_page category_id feed_id : JSON) : List (String × JSON) :=
  let params := [("page", page), ("per_page", per_page)]
  let params := if pyTruthy category_id then params ++ [("category_id", category_id)] else params
  let params := if pyTruthy feed_id then params ++ [("feed_id", feed_id)] else params
  params

/-- client.py get_entries with its declared default arguments
page=1, per_page=50. -/
def get_entries_params_default (category_id feed_id : JSON) : List (String × JSON) :=
  get_entries_params (.num 1) (.num 50) category_id feed_id

/- ------------------------------------------------------------------ -/
/- Characterization helpers used to state the claims                  -/
/- ------------------------------------------------------------------ -/

/-- The feed id the TaskStatus loop derives from a key: defined when the
key starts with feed_ and the segment between the first and second
underscore parses as a Python int. -/
def feedKeyId (k : String) : Option Int :=
  if strStartsWith k "feed_" then
    (splitChars '_' k.data)[1]?.bind (fun seg => pyInt (String.mk seg))
  else none

/-- Nested running flag of a task value (False when absent or when the
value is not a dict). -/
def runningField (v : JSON) : JSON :=
  match v with
  | .obj fields => dictGet fields "running" (.bool false)
  | _ => .bool false

/-- Reference per-feed mapping: pairs contributed by keys carrying a feed
id, in input order. -/
def feedTasksSpec (data : List (String × JSON)) : List (Int × JSON) :=
  data.filterMap (fun kv => (feedKeyId kv.1).map (fun n => (n, runningField kv.2)))

/-- Reference all_feeds flag: the running field under the key exactly
all_feeds, false when that key is absent. -/
def allFeedsSpec (data : List (String × JSON)) : JSON :=
  match data.find? (fun kv => kv.1 == "all_feeds") with
  | some kv => runningField kv.2
  | none => .bool false

/-- Whether the TaskStatus loop body reads .get on the value under a key
(and hence demands that the value be a dict). -/
def taskDemandsObj (k : String) : Bool :=
  (k == "all_feeds") || (feedKeyId k).isSome

/-- The body's error entry when the body parses as a JSON object. -/
def errorField (body : Option JSON) : Option JSON :=
  match body with
  | some (.obj fields) => dictFind fields "error"
  | _ => none

/-- Whether a request outcome is a raised APIError. -/
def resultIsApiError (r : Except PyExc JSON) : Bool :=
  match r with
  | .error e => e.isApiError
  | .ok _ => false

/- ------------------------------------------------------------------ -/
/- Helper lemmas                                                      -/
/- ------------------------------------------------------------------ -/

theorem dictGet_of_none {data : List (String × JSON)} {k : String} {d : JSON}
    (h : dictFind data k = none) : dictGet data k d = d := by
  unfold dictGet
  rw [h]
  rfl

theorem dictGet_of_some {data : List (String × JSON)} {k : String} {d v : JSON}
    (h : dictFind data k = some v) : dictGet data k d = v := by
  unfold dictGet
  rw [h]
  rfl

/- ------------------------------------------------------------------ -/
/- Claim theorems                                                     -/
/- ------------------------------------------------------------------ -/

/-- C6: Pagination.from_dict of the empty object yields page=1,
per_page=50, total=0, pages=1, has_next=false, has_prev=false, and on
every input object each field falls back to its default exactly when the
key is absent, taking the stored value whenever the key is present. -/
theorem c6_pagination_defaults :
    Pagination.from_dict [] =
      ⟨.num 1, .num 50, .num 0, .num 1, .bool false, .bool false⟩ ∧
    ∀ data : List (String × JSON),
      (dictFind data "page" = none → (Pagination.from_dict data).page = .num 1) ∧
      (∀ v, dictFind data "page" = some v → (Pagination.from_dict data).page = v) ∧
      (dictFind data "per_page" = none → (Pagination.from_dict data).per_page = .num 50) ∧
      (∀ v, dictFind data "per_page" = some v → (Pagination.from_dict data).per_page = v) ∧
      (dictFind data "total" = none → (Pagination.from_dict data).total = .num 0) ∧
      (∀ v, dictFind data "total" = some v → (Pagination.from_dict data).total = v) ∧
      (dictFind data "pages" = none → (Pagination.from_dict data).pages = .num 1) ∧
      (∀ v, dictFind data "pages" = some v → (Pagination.from_dict data).pages = v) ∧
      (dictFind data "has_next" = none → (Pagination.from_dict data).has_next = .bool false) ∧
      (∀ v, dictFind data "has_next" = some v → (Pagination.from_dict data).has_next = v) ∧
      (dictFind data "has_prev" = none → (Pagination.from_dict data).has_prev = .bool false) ∧
      (∀ v, dictFind data "has_prev" = some v → (Pagination.from_dict data).has_prev = v) := by
  refine ⟨rfl, fun data => ⟨?_, ?_, ?_, ?_, ?_, ?_, ?_, ?_, ?_, ?_, ?_, ?_⟩⟩
  all_goals first
    | exact fun h => dictGet_of_none h
    | exact fun v h => dictGet_of_some h

/-- Witness for C6 at a concrete object missing the page key. -/
theorem c6_pagination_defaults_witness :
    dictFind [("per_page", JSON.num 7)] "page" = none ∧
    (Pagination.from_dict [("per_page", JSON.num 7)]).page = .num 1 :=
  ⟨rfl, (c6_pagination_defaults.2 [("per_page", JSON.num 7)]).1 rfl⟩

/-- C9: Entry.from_dict substitutes the empty dict for a missing feed key
and None for the other missing optional keys. -/
theorem c9_entry_feed_default :
    ∀ data : List (String × JSON),
      (dictFind data "feed" = none → (Entry.from_dict data).feed = .obj []) ∧
      (dictFind data "published_at" = none → (Entry.from_dict data).published_at = .null) ∧
      (dictFind data "author" = none → (Entry.from_dict data).author = .null) ∧
      (dictFind data "content" = none → (Entry.from_dict data).content = .null) ∧
      (dictFind data "media" = none → (Entry.from_dict data).media = .null) := by
  refine fun data => ⟨?_, ?_, ?_, ?_, ?_⟩
  all_goals exact fun h => dictGet_of_none h

/-- Witness for C9 at the empty object. -/
theorem c9_entry_feed_default_witness :
    dictFind ([] : List (String × JSON)) "feed" = none ∧
    (Entry.from_dict []).feed = .obj [] ∧ (Entry.from_dict []).author = .null :=
  ⟨rfl, (c9_entry_feed_default []).1 rfl, (c9_entry_feed_default []).2.2.1 rfl⟩

/-- C7: get_feeds sends no query mapping at all when its category_id is
falsy (unset, None or zero) and sends the given value when truthy;
get_entries always sends page and per_page (1 and 50 under the declared
defaults) and includes each filter exactly when its argument is truthy,
with the given value. -/
theorem c7_query_param_omission :
    (∀ c : JSON, pyTruthy c = false → get_feeds_params c = none) ∧
    (∀ c : JSON, pyTruthy c = true → get_feeds_params c = some [("category_id", c)]) ∧
    (∀ p pp c f : JSON,
      dictFind (get_entries_params p pp c f) "page" = some p ∧
      dictFind (get_entries_params p pp c f) "per_page" = some pp ∧
      (pyTruthy c = false → dictFind (get_entries_params p pp c f) "category_id" = none) ∧
      (pyTruthy c = true → dictFind (get_entries_params p pp c f) "category_id" = some c) ∧
      (pyTruthy f = false → dictFind (get_entries_params p pp c f) "feed_id" = none) ∧
      (pyTruthy f = true → dictFind (get_entries_params p pp c f) "feed_id" = some f)) ∧
    (∀ c f : JSON,
      dictFind (get_entries_params_default c f) "page" = some (.num 1) ∧
      dictFind (get_entries_params_default c f) "per_page" = some (.num 50)) := by
  have hmain : ∀ p pp c f : JSON,
      dictFind (get_entries_params p pp c f) "page" = some p ∧
      dictFind (get_entries_params p pp c f) "per_page" = some pp ∧
      (pyTruthy c = false → dictFind (get_entries_params p pp c f) "category_id" = none) ∧
      (pyTruthy c = true → dictFind (get_entries_params p pp c f) "category_id" = some c) ∧
      (pyTruthy f = false → dictFind (get_entries_params p pp c f) "feed_id" = none) ∧
      (pyTruthy f = true → dictFind (get_entries_params p pp c f) "feed_id" = some f) := by
    intro p pp c f
    cases hc : pyTruthy c <;> cases hf : pyTruthy f <;>
      simp only [get_entries_params, hc, hf, Bool.false_eq_true, if_false, if_true,
        ite_true, ite_false] <;>
      refine ⟨rfl, rfl, fun h => ?_, fun h => ?_, fun h => ?_, fun h => ?_⟩ <;>
      first
        | rfl
        | exact h.elim
        | exact Bool.noConfusion h
  refine ⟨?_, ?_, hmain, ?_⟩
  · intro c h
    simp [get_feeds_params, h]
  · intro c h
    simp [get_feeds_params, h]
  · intro c f
    exact ⟨(hmain (.num 1) (.num 50) c f).1, (hmain (.num 1) (.num 50) c f).2.1⟩

/-- Witness for C7 at concrete falsy and truthy filter values. -/
theorem c7_query_param_omission_witness :
    pyTruthy (JSON.num 0) = false ∧ pyTruthy (JSON.num 5) = true ∧
    get_feeds_params (JSON.num 0) = none ∧
    dictFind (get_entries_params (JSON.num 2) (JSON.num 10) (JSON.num 0) (JSON.num 5))
      "category_id" = none ∧
    dictFind (get_entries_params (JSON.num 2) (JSON.num 10) (JSON.num 0) (JSON.num 5))
      "feed_id" = some (JSON.num 5) :=
  ⟨rfl, rfl, c7_query_param_omission.1 (JSON.num 0) rfl,
    (c7_query_param_omission.2.2.1 (JSON.num 2) (JSON.num 10) (JSON.num 0) (JSON.num 5)).2.2.1 rfl,
    (c7_query_param_omission.2.2.1 (JSON.num 2) (JSON.num 10) (JSON.num 0) (JSON.num 5)).2.2.2.2.2 rfl⟩

theorem make_request_response_GET (status : Nat) (body : Option JSON) :
    make_request "GET" (.response status body) =
      (if 400 ≤ status ∧ status < 600 then
        if status = 401 then
          .error (.authenticationError
            (extractErrorMsg body (.str "Invalid API key or authentication required")))
        else
          .error (apiErrorInit status
            (some (extractErrorMsg body (.str ("HTTP Error: " ++ toString status)))))
      else
        match body with
        | some j => .ok j
        | none => .error (.jsonDecodeError "Expecting value")) := rfl

theorem find?_of_dictFind_none {fields : List (String × JSON)} {k : String}
    (h : dictFind fields k = none) : fields.find? (fun kv => kv.1 == k) = none := by
  unfold dictFind at h
  cases hf : fields.find? (fun kv => kv.1 == k) with
  | none => rfl
  | some kv => rw [hf] at h; exact Option.noConfusion h

theorem any_of_dictFind_none {fields : List (String × JSON)} {k : String}
    (h : dictFind fields k = none) : fields.any (fun kv => kv.1 == k) = false := by
  rw [List.any_eq_false]
  intro x hx
  simpa using List.find?_eq_none.mp (find?_of_dictFind_none h) x hx

theorem extractErrorMsg_of_noField {body : Option JSON} {d : JSON}
    (h : errorField body = none) : extractErrorMsg body d = d := by
  match body with
  | none => rfl
  | some .null => rfl
  | some (.bool b) => rfl
  | some (.num n) => rfl
  | some (.str s) =>
    show (match (some (listInfix "error".data s.data) : Option Bool) with
          | none => d
          | some false => d
          | some true =>
            match getItemError (.str s) with
            | some v => v
            | none => d) = d
    cases listInfix "error".data s.data <;> rfl
  | some (.arr elems) =>
    show (match (some (elems.any fun e => match e with | .str s => s == "error" | _ => false) :
            Option Bool) with
          | none => d
          | some false => d
          | some true =>
            match getItemError (.arr elems) with
            | some v => v
            | none => d) = d
    cases elems.any fun e => match e with | .str s => s == "error" | _ => false <;> rfl
  | some (.obj fields) =>
    have hfind : dictFind fields "error" = none := h
    have hany := any_of_dictFind_none hfind
    simp [extractErrorMsg, containsErrorKey, hany]

theorem extractErrorMsg_of_field {fields : List (String × JSON)} {v d : JSON}
    (h : dictFind fields "error" = some v) :
    extractErrorMsg (some (.obj fields)) d = v := by
  obtain ⟨kv, hkv, hv⟩ := Option.map_eq_some'.mp h
  have hp : (kv.1 == "error") = true :=
    @List.find?_some _ (fun kv => kv.1 == "error") kv fields hkv
  have hany : fields.any (fun kv => kv.1 == "error") = true :=
    List.any_eq_true.mpr ⟨kv, List.mem_of_find?_eq_some hkv, hp⟩
  simp [extractErrorMsg, containsErrorKey, hany, getItemError, h]

/-- C3 (amended): an unsupported HTTP method makes _make_request raise the
built-in ValueError naming the method — not the taxonomy root
RSSReaderException nor any other client error — and the outcome does not
depend on the network behavior, so no request is observable. -/
theorem c3_unsupported_method_valueError :
    ∀ (method : String) (net : NetResult), supportedMethod method = false →
      make_request method net = .error (.valueError ("Unsupported HTTP method: " ++ method)) := by
  intro method net h
  simp [make_request, h]

/-- Witness for C3 at the PATCH method against a healthy 200 response. -/
theorem c3_unsupported_method_valueError_witness :
    supportedMethod "PATCH" = false ∧
    make_request "PATCH" (.response 200 (some (.obj []))) =
      .error (.valueError ("Unsupported HTTP method: " ++ "PATCH")) :=
  ⟨rfl, c3_unsupported_method_valueError "PATCH" (.response 200 (some (.obj []))) rfl⟩

/-- C3 counterexample: at method PATCH the raised exception is the Python
built-in ValueError, which is not the taxonomy root RSSReaderException,
contrary to the claim that the base taxonomy error is raised. -/
theorem c3_counterexample_valueError_not_taxonomy :
    make_request "PATCH" (.response 200 (some (.obj []))) =
      .error (.valueError "Unsupported HTTP method: PATCH") ∧
    PyExc.isTaxonomyRoot (.valueError "Unsupported HTTP method: PATCH") = false :=
  ⟨rfl, rfl⟩

/-- C4: a 401 response raises AuthenticationError; the message is the
body's error entry when the body parses as a JSON object carrying one,
and the fixed default message otherwise; in particular body
error = bad key yields the message bad key. -/
theorem c4_auth_error_message :
    (∀ body : Option JSON, errorField body = none →
      make_request "GET" (.response 401 body) =
        .error (.authenticationError (.str "Invalid API key or authentication required"))) ∧
    (∀ (fields : List (String × JSON)) (v : JSON), dictFind fields "error" = some v →
      make_request "GET" (.response 401 (some (.obj fields))) =
        .error (.authenticationError v)) ∧
    make_request "GET" (.response 401 (some (.obj [("error", .str "bad key")]))) =
      .error (.authenticationError (.str "bad key")) := by
  refine ⟨?_, ?_, rfl⟩
  · intro body h
    rw [make_request_response_GET, if_pos (by omega : 400 ≤ 401 ∧ 401 < 600), if_pos rfl,
      extractErrorMsg_of_noField h]
  · intro fields v h
    rw [make_request_response_GET, if_pos (by omega : 400 ≤ 401 ∧ 401 < 600), if_pos rfl,
      extractErrorMsg_of_field h]

/-- Witness for C4 at a 401 response carrying an error body. -/
theorem c4_auth_error_message_witness :
    dictFind [("error", JSON.str "wrong key")] "error" = some (.str "wrong key") ∧
    make_request "GET" (.response 401 (some (.obj [("error", JSON.str "wrong key")]))) =
      .error (.authenticationError (.str "wrong key")) :=
  ⟨rfl, c4_auth_error_message.2.1 [("error", JSON.str "wrong key")] (.str "wrong key") rfl⟩

theorem httpErrorMsg_ne_empty (s : String) : ("HTTP Error: " ++ s) ≠ "" := by
  intro h
  have hlen : ("HTTP Error: " ++ s).data.length = 0 := by rw [h]; rfl
  rw [String.data_append, List.length_append] at hlen
  have h12 : ("HTTP Error: " : String).data.length = 12 := rfl
  omega

theorem apiErrorInit_of_truthy (status : Nat) (m : JSON) (h : pyFalsy m = false) :
    apiErrorInit status (some m) = .apiError status m := by
  simp [apiErrorInit, h]

/-- C1 (amended): for every 4xx/5xx response other than 401 whose body is
not parseable as JSON or whose parsed body carries no error entry,
_make_request raises APIError with that status code and the message
HTTP Error: status produced in _make_request itself; the
API Error (Status code: ...) fallback built into APIError is not what
this path produces. -/
theorem c1_apiError_status_and_message :
    ∀ (status : Nat) (body : Option JSON),
      400 ≤ status → status < 600 → status ≠ 401 → errorField body = none →
      make_request "GET" (.response status body) =
        .error (.apiError status (.str ("HTTP Error: " ++ toString status))) := by
  intro status body h1 h2 h3 h4
  rw [make_request_response_GET, if_pos ⟨h1, h2⟩, if_neg h3, extractErrorMsg_of_noField h4,
    apiErrorInit_of_truthy]
  exact beq_eq_false_iff_ne.mpr (httpErrorMsg_ne_empty (toString status))

/-- Witness for C1 at a 500 response with an unparseable body. -/
theorem c1_apiError_status_and_message_witness :
    (400 ≤ 500 ∧ 500 < 600 ∧ 500 ≠ 401 ∧ errorField (none : Option JSON) = none) ∧
    make_request "GET" (.response 500 none) =
      .error (.apiError 500 (.str ("HTTP Error: " ++ toString 500))) :=
  ⟨⟨by omega, by omega, by omega, rfl⟩,
    c1_apiError_status_and_message 500 none (by omega) (by omega) (by omega) rfl⟩

/-- C1 counterexample: a 500 response with a non-JSON body raises APIError
with status 500 but message HTTP Error: 500, not the claimed
API Error (Status code: 500); and a 304 response (non-2xx, non-401) with
a non-JSON body raises no APIError at all. -/
theorem c1_counterexample_message_and_304 :
    make_request "GET" (.response 500 none) =
      .error (.apiError 500 (.str "HTTP Error: 500")) ∧
    ("HTTP Error: 500" : String) ≠ "API Error (Status code: 500)" ∧
    resultIsApiError (make_request "GET" (.response 304 none)) = false := by
  refine ⟨rfl, ?_, rfl⟩
  decide

/-- C8 (amended): published_datetime returns None exactly when
published_at is falsy — absent (None) or, in particular, the empty
string — and on published_at 2024-01-01T00:00:00Z it returns the
offset-zero (UTC) midnight of January 1, 2024; on an absent
published_at it returns None. -/
theorem c8_published_datetime_none_iff_falsy :
    (∀ e : Entry, e.published_datetime = .ok none ↔ pyFalsy e.published_at = true) ∧
    (Entry.from_dict [("published_at", .str "2024-01-01T00:00:00Z")]).published_datetime =
      .ok (some ⟨2024, 1, 1, 0, 0, 0, some 0⟩) ∧
    (Entry.from_dict []).published_datetime = .ok none := by
  refine ⟨?_, rfl, rfl⟩
  intro e
  constructor
  · intro h
    cases hpf : pyFalsy e.published_at with
    | true => rfl
    | false =>
      exfalso
      rw [Entry.published_datetime, hpf] at h
      simp only [Bool.false_eq_true, if_false] at h
      cases hpa : e.published_at <;> rw [hpa] at h <;> try exact Except.noConfusion h
      rename_i s
      have h' : (match fromisoformat (pyReplaceChar s 'Z' "+00:00") with
                 | some dt => (Except.ok (some dt) : Except String (Option PyDatetime))
                 | none => Except.error "ValueError") = Except.ok none := h
      cases hiso : fromisoformat (pyReplaceChar s 'Z' "+00:00") <;> rw [hiso] at h'
      · exact Except.noConfusion h'
      · simp at h'
  · intro h
    rw [Entry.published_datetime, h]
    rfl

/-- C8 counterexample: an entry whose published_at is present as the empty
string has a published_at value, yet published_datetime returns None. -/
theorem c8_counterexample_empty_string :
    (Entry.from_dict [("published_at", .str "")]).published_datetime = .ok none ∧
    (Entry.from_dict [("published_at", .str "")]).published_at = .str "" ∧
    (Entry.from_dict [("published_at", .str "")]).published_at ≠ .null :=
  ⟨rfl, rfl, fun h => JSON.noConfusion h⟩

/-- C10: on a truthy published string, published_datetime equals the
fromisoformat parse of the string with every occurrence of Z replaced by
+00:00 (str.replace substitutes globally, not only a trailing zone
marker), as the substitution of the non-trailing Z in Z1Z shows. -/
theorem c10_replace_all_occurrences :
    (∀ (e : Entry) (s : String), e.published_at = .str s → s ≠ "" →
      e.published_datetime =
        (match fromisoformat (pyReplaceChar s 'Z' "+00:00") with
         | some dt => .ok (some dt)
         | none => .error "ValueError")) ∧
    pyReplaceChar "Z1Z" 'Z' "+00:00" = "+00:001+00:00" := by
  refine ⟨?_, rfl⟩
  intro e s hpa hs
  have hf : pyFalsy e.published_at = false := by
    rw [hpa]
    exact beq_eq_false_iff_ne.mpr hs
  rw [Entry.published_datetime, hf]
  simp only [Bool.false_eq_true, if_false, hpa]

/-- Witness for C10 at a timestamp carrying a trailing Z. -/
theorem c10_replace_all_occurrences_witness :
    (Entry.from_dict [("published_at", JSON.str "2024-06-05T12:30:00Z")]).published_at =
      .str "2024-06-05T12:30:00Z" ∧
    ("2024-06-05T12:30:00Z" : String) ≠ "" ∧
    (Entry.from_dict [("published_at", JSON.str "2024-06-05T12:30:00Z")]).published_datetime =
      (match fromisoformat (pyReplaceChar "2024-06-05T12:30:00Z" 'Z' "+00:00") with
       | some dt => .ok (some dt)
       | none => .error "ValueError") :=
  ⟨rfl, by decide,
    c10_replace_all_occurrences.1 (Entry.from_dict [("published_at", JSON.str "2024-06-05T12:30:00Z")])
      "2024-06-05T12:30:00Z" rfl (by decide)⟩

theorem systemStatus_ok_iff (data : List (String × JSON)) :
    (SystemStatus.from_dict data).isOk =
      ((dictGet data "feeds" (.obj [])).isObjB &&
       (dictGet data "categories" (.obj [])).isObjB &&
       (dictGet data "entries" (.obj [])).isObjB) := by
  unfold SystemStatus.from_dict
  cases hf : dictGet data "feeds" (.obj []) <;>
    cases hc : dictGet data "categories" (.obj []) <;>
      cases he : dictGet data "entries" (.obj []) <;> rfl

theorem dictFind_eraseKey_self (data : List (String × JSON)) (k : String) :
    dictFind (eraseKey data k) k = none := by
  unfold dictFind
  have hnone : (eraseKey data k).find? (fun kv => kv.1 == k) = none := by
    rw [List.find?_eq_none]
    intro kv hkv
    have hmem := (List.mem_filter.mp hkv).2
    simp only [Bool.not_eq_eq_eq_not, Bool.not_true] at hmem
    simp [hmem]
  rw [hnone]
  rfl

theorem dictFind_eraseKey_ne (data : List (String × JSON)) (k k₂ : String)
    (hne : k₂ ≠ k) : dictFind (eraseKey data k) k₂ = dictFind data k₂ := by
  induction data with
  | nil => rfl
  | cons kv rest ih =>
    unfold eraseKey at ih ⊢
    unfold dictFind at ih ⊢
    rw [List.filter_cons]
    cases hk : (kv.1 == k) with
    | true =>
      have hkeq : kv.1 = k := by simpa using hk
      simp only [Bool.not_true, if_false, Bool.false_eq_true]
      have hpred : (kv.1 == k₂) = false := by
        rw [hkeq]
        exact beq_eq_false_iff_ne.mpr (fun h => hne h.symm)
      rw [List.find?_cons, hpred]
      exact ih
    | false =>
      simp only [Bool.not_false, if_true]
      rw [List.find?_cons, List.find?_cons]
      cases hp : (kv.1 == k₂) with
      | true => rfl
      | false => exact ih

theorem dictGet_eraseKey (data : List (String × JSON)) (k k₂ : String) (d : JSON) :
    dictGet (eraseKey data k) k₂ d = if k₂ = k then d else dictGet data k₂ d := by
  by_cases hk : k₂ = k
  · rw [if_pos hk, hk]
    exact dictGet_of_none (dictFind_eraseKey_self data k)
  · rw [if_neg hk]
    unfold dictGet
    rw [dictFind_eraseKey_ne data k k₂ hk]

theorem systemStatus_erase (data : List (String × JSON)) (k : String)
    (h : (SystemStatus.from_dict data).isOk = true) :
    (SystemStatus.from_dict (eraseKey data k)).isOk = true := by
  rw [systemStatus_ok_iff] at h ⊢
  rw [dictGet_eraseKey, dictGet_eraseKey, dictGet_eraseKey]
  by_cases h1 : ("feeds" : String) = k <;> by_cases h2 : ("categories" : String) = k <;>
    by_cases h3 : ("entries" : String) = k <;>
    simp_all [JSON.isObjB]

theorem taskAux_isOk (data : List (String × JSON)) :
    ∀ (ft : List (Int × JSON)) (af : JSON),
      (taskAux data ft af).isOk =
        data.all (fun kv => !(taskDemandsObj kv.1) || kv.2.isObjB) := by
  induction data with
  | nil => intro ft af; rfl
  | cons kv rest ih =>
    intro ft af
    obtain ⟨k, v⟩ := kv
    rw [List.all_cons]
    unfold taskAux
    cases hk : (k == "all_feeds") with
    | true =>
      simp only [if_true, Bool.true_eq_false]
      have hd : taskDemandsObj k = true := by simp [taskDemandsObj, hk]
      rw [hd]
      cases v <;>
        first
          | exact ih _ _
          | simp [JSON.isObjB, Except.isOk, Except.toBool, ih]
    | false =>
      simp only [Bool.false_eq_true, if_false]
      cases hs : strStartsWith k "feed_" with
      | false =>
        have hd : taskDemandsObj k = false := by
          simp [taskDemandsObj, hk, feedKeyId, hs]
        rw [hd]
        simp [ih]
      | true =>
        cases hg : (splitChars '_' k.data)[1]? with
        | none =>
          have hd : taskDemandsObj k = false := by
            simp [taskDemandsObj, hk, feedKeyId, hs, hg]
          rw [hd]
          simp only [if_true, hg]
          simp [ih]
        | some seg =>
          cases hp : pyInt (String.mk seg) with
          | none =>
            have hd : taskDemandsObj k = false := by
              simp [taskDemandsObj, hk, feedKeyId, hs, hg, hp]
            rw [hd]
            simp only [if_true, hg, hp]
            simp [ih]
          | some fid =>
            have hd : taskDemandsObj k = true := by
              simp [taskDemandsObj, hk, feedKeyId, hs, hg, hp]
            rw [hd]
            simp only [if_true, hg, hp]
            cases v <;>
              first
                | exact ih _ _
                | simp [JSON.isObjB, Except.isOk, Except.toBool, ih]

theorem taskStatus_ok_iff (data : List (String × JSON)) :
    (TaskStatus.from_dict data).isOk =
      data.all (fun kv => !(taskDemandsObj kv.1) || kv.2.isObjB) := by
  unfold TaskStatus.from_dict
  rw [← taskAux_isOk data [] (.bool false)]
  cases taskAux data [] (.bool false) <;> rfl

theorem taskStatus_erase (data : List (String × JSON)) (k : String)
    (h : (TaskStatus.from_dict data).isOk = true) :
    (TaskStatus.from_dict (eraseKey data k)).isOk = true := by
  rw [taskStatus_ok_iff] at h ⊢
  rw [List.all_eq_true] at h ⊢
  intro x hx
  unfold eraseKey at hx
  exact h x (List.mem_filter.mp hx).1

/-- C5: every decoder tolerates absent keys: each decoder of the empty
object succeeds with the documented defaults (None for plain optional
fields), and for the two decoders that can fail at all (SystemStatus and
TaskStatus, on present non-dict values), removing a key never turns a
successful decode into a failure — a decode failure is never caused by
an absent field. -/
theorem c5_decoders_tolerate_missing_keys :
    Category.from_dict [] = ⟨.null, .null, .num 0⟩ ∧
    Feed.from_dict [] =
      ⟨.null, .null, .null, .null, .null, .null, .bool false, .num 0, .num 0⟩ ∧
    Entry.from_dict [] =
      ⟨.null, .null, .null, .null, .null, .null, .null, .obj [], .null, .null⟩ ∧
    Pagination.from_dict [] = ⟨.num 1, .num 50, .num 0, .num 1, .bool false, .bool false⟩ ∧
    SystemStatus.from_dict [] = .ok ⟨.num 0, .num 0, .num 0, .null, .null, .num 0⟩ ∧
    TaskStatus.from_dict [] = .ok ⟨[], .bool false⟩ ∧
    (∀ (data : List (String × JSON)) (k : String),
      (SystemStatus.from_dict data).isOk = true →
      (SystemStatus.from_dict (eraseKey data k)).isOk = true) ∧
    (∀ (data : List (String × JSON)) (k : String),
      (TaskStatus.from_dict data).isOk = true →
      (TaskStatus.from_dict (eraseKey data k)).isOk = true) :=
  ⟨rfl, rfl, rfl, rfl, rfl, rfl, systemStatus_erase, taskStatus_erase⟩

/-- Witness for C5: erasing the feeds key from a decodable status object
keeps it decodable. -/
theorem c5_decoders_tolerate_missing_keys_witness :
    (SystemStatus.from_dict [("feeds", JSON.obj [("total", JSON.num 3)])]).isOk = true ∧
    (SystemStatus.from_dict
      (eraseKey [("feeds", JSON.obj [("total", JSON.num 3)])] "feeds")).isOk = true :=
  ⟨rfl, c5_decoders_tolerate_missing_keys.2.2.2.2.2.2.1
    [("feeds", JSON.obj [("total", JSON.num 3)])] "feeds" rfl⟩

theorem dictSetInt_fresh (ft : List (Int × JSON)) (fid : Int) (r : JSON)
    (h : fid ∉ ft.map Prod.fst) : dictSetInt ft fid r = ft ++ [(fid, r)] := by
  have hany : ft.any (fun kv => kv.1 == fid) = false := by
    rw [List.any_eq_false]
    intro x hx hbeq
    have hx1 : x.1 = fid := by simpa using hbeq
    exact h (hx1 ▸ List.mem_map_of_mem Prod.fst hx)
  simp [dictSetInt, hany]

theorem taskAux_spec :
    ∀ (data : List (String × JSON)) (ft : List (Int × JSON)) (af : JSON)
      (res : List (Int × JSON) × JSON),
      taskAux data ft af = .ok res →
      (ft.map Prod.fst ++ data.filterMap (fun kv => feedKeyId kv.1)).Nodup →
      (data.map Prod.fst).Nodup →
      res.1 = ft ++ feedTasksSpec data ∧
      res.2 = (match data.find? (fun kv => kv.1 == "all_feeds") with
               | some kv => runningField kv.2
               | none => af) := by
  intro data
  induction data with
  | nil =>
    intro ft af res h _ _
    injection h with h1
    refine ⟨?_, ?_⟩
    · rw [← h1]
      simp [feedTasksSpec]
    · rw [← h1]
      rfl
  | cons kv rest ih =>
    intro ft af res h hids hkeys
    obtain ⟨k, v⟩ := kv
    rw [List.map_cons] at hkeys
    have hknotin : k ∉ rest.map Prod.fst := (List.nodup_cons.mp hkeys).1
    have hkeys' : (rest.map Prod.fst).Nodup := (List.nodup_cons.mp hkeys).2
    unfold taskAux at h
    cases hk : (k == "all_feeds") with
    | true =>
      rw [if_pos hk] at h
      have hkeq : k = "all_feeds" := by simpa using hk
      cases v with
      | obj fields =>
        have hfid : feedKeyId k = none := by rw [hkeq]; rfl
        have hids' : (ft.map Prod.fst ++ rest.filterMap (fun kv => feedKeyId kv.1)).Nodup := by
          rw [List.filterMap_cons, hfid] at hids
          exact hids
        obtain ⟨h1, h2⟩ := ih ft _ res h hids' hkeys'
        have hrestfind : rest.find? (fun kv => kv.1 == "all_feeds") = none := by
          rw [List.find?_eq_none]
          intro x hx hpx
          have hx1 : x.1 = "all_feeds" := by simpa using hpx
          rw [hkeq] at hknotin
          exact hknotin (hx1 ▸ List.mem_map_of_mem Prod.fst hx)
        refine ⟨?_, ?_⟩
        · rw [h1]
          have hspec : feedTasksSpec (((k, JSON.obj fields)) :: rest) = feedTasksSpec rest := by
            simp [feedTasksSpec, List.filterMap_cons, hfid]
          rw [hspec]
        · rw [h2, hrestfind]
          simp [List.find?_cons, hk, runningField]
      | null => exact Except.noConfusion h
      | bool b => exact Except.noConfusion h
      | num n => exact Except.noConfusion h
      | str s => exact Except.noConfusion h
      | arr elems => exact Except.noConfusion h
    | false =>
      rw [if_neg (by simp [hk])] at h
      have hfindcons : ((k, v) :: rest).find? (fun kv => kv.1 == "all_feeds") =
          rest.find? (fun kv => kv.1 == "all_feeds") := by
        simp [List.find?_cons, hk]
      have hskip : ∀ h' : taskAux rest ft af = .ok res, feedKeyId k = none →
          res.1 = ft ++ feedTasksSpec ((k, v) :: rest) ∧
          res.2 = (match ((k, v) :: rest).find? (fun kv => kv.1 == "all_feeds") with
                   | some kv => runningField kv.2
                   | none => af) := by
        intro h' hfid
        have hids' : (ft.map Prod.fst ++ rest.filterMap (fun kv => feedKeyId kv.1)).Nodup := by
          rw [List.filterMap_cons, hfid] at hids
          exact hids
        obtain ⟨h1, h2⟩ := ih ft af res h' hids' hkeys'
        refine ⟨?_, ?_⟩
        · rw [h1]
          have hspec : feedTasksSpec ((k, v) :: rest) = feedTasksSpec rest := by
            simp [feedTasksSpec, List.filterMap_cons, hfid]
          rw [hspec]
        · rw [h2, hfindcons]
      cases hs : strStartsWith k "feed_" with
      | false =>
        rw [if_neg (by simp [hs])] at h
        exact hskip h (by simp [feedKeyId, hs])
      | true =>
        rw [if_pos hs] at h
        cases hg : (splitChars '_' k.data)[1]? with
        | none =>
          rw [hg] at h
          exact hskip h (by simp [feedKeyId, hs, hg])
        | some seg =>
          simp only [hg] at h
          cases hp : pyInt (String.mk seg) with
          | none =>
            simp only [hp] at h
            exact hskip h (by simp [feedKeyId, hs, hg, hp])
          | some fid =>
            simp only [hp] at h
            cases v with
            | obj fields =>
              have h3m : taskAux rest
                  (dictSetInt ft fid (dictGet fields "running" (.bool false))) af = .ok res := h
              have hfid : feedKeyId k = some fid := by simp [feedKeyId, hs, hg, hp]
              rw [List.filterMap_cons, hfid] at hids
              have hfidnotft : fid ∉ ft.map Prod.fst := fun hmem =>
                (List.nodup_append.mp hids).2.2 hmem (List.mem_cons_self _ _)
              rw [dictSetInt_fresh ft fid _ hfidnotft] at h3m
              have hids' : ((ft ++ [(fid, dictGet fields "running" (.bool false))]).map Prod.fst ++
                  rest.filterMap (fun kv => feedKeyId kv.1)).Nodup := by
                rw [List.map_append, List.append_assoc]
                exact hids
              obtain ⟨h1, h2⟩ := ih _ af res h3m hids' hkeys'
              refine ⟨?_, ?_⟩
              · rw [h1, List.append_assoc]
                have hspec : feedTasksSpec ((k, JSON.obj fields) :: rest) =
                    (fid, dictGet fields "running" (.bool false)) :: feedTasksSpec rest := by
                  simp [feedTasksSpec, List.filterMap_cons, hfid, runningField]
                rw [hspec]
                rfl
              · rw [h2, hfindcons]
            | null => exact Except.noConfusion h
            | bool b => exact Except.noConfusion h
            | num n => exact Except.noConfusion h
            | str s => exact Except.noConfusion h
            | arr elems => exact Except.noConfusion h

/-- C2 (amended): on a successfully decoded object with distinct keys
whose derived feed ids are pairwise distinct, all_feeds_running is the
nested running field of the key exactly all_feeds (false when that key
or its running field is absent), and feed_tasks has exactly the entries
of the keys that start with feed_ and whose segment between the first
and second underscore parses as a Python integer — keyed by that integer
and valued by the nested running field; every other key, including
malformed feed_<non-integer> keys, is silently skipped.  (The original
claim's requirement that a key match feed_<integer> exactly is refuted by
the counterexample: trailing segments after a second underscore are
ignored, not rejected.) -/
theorem c2_taskStatus_decode :
    ∀ (data : List (String × JSON)) (t : TaskStatus),
      (data.map Prod.fst).Nodup →
      (data.filterMap (fun kv => feedKeyId kv.1)).Nodup →
      TaskStatus.from_dict data = .ok t →
      t.feed_tasks = feedTasksSpec data ∧ t.all_feeds_running = allFeedsSpec data := by
  intro data t hkeys hids hok
  unfold TaskStatus.from_dict at hok
  cases haux : taskAux data [] (.bool false) with
  | error e => rw [haux] at hok; exact Except.noConfusion hok
  | ok res =>
    rw [haux] at hok
    have ht : t = { feed_tasks := res.1, all_feeds_running := res.2 } := by
      injection hok with h1
      exact h1.symm
    obtain ⟨h1, h2⟩ := taskAux_spec data [] (.bool false) res haux (by simpa using hids) hkeys
    rw [ht]
    refine ⟨?_, ?_⟩
    · rw [h1]
      rfl
    · rw [h2]
      unfold allFeedsSpec
      cases data.find? (fun kv => kv.1 == "all_feeds") <;> rfl

/-- C2 counterexample: the key feed_1_2 does not match the pattern
feed_<integer> exactly, yet it contributes the entry 1 ↦ true to
feed_tasks instead of being skipped. -/
theorem c2_counterexample_trailing_segment :
    TaskStatus.from_dict [("feed_1_2", .obj [("running", .bool true)])] =
      .ok { feed_tasks := [(1, .bool true)], all_feeds_running := .bool false } := rfl

/-- Witness for C2 at the worked example of the specification. -/
theorem c2_taskStatus_decode_witness :
    (([("all_feeds", JSON.obj [("running", JSON.bool true)]),
       ("feed_7", JSON.obj [("running", JSON.bool false)]),
       ("feed_bad", JSON.obj [("running", JSON.bool true)])].map Prod.fst).Nodup ∧
     ([("all_feeds", JSON.obj [("running", JSON.bool true)]),
       ("feed_7", JSON.obj [("running", JSON.bool false)]),
       ("feed_bad", JSON.obj [("running", JSON.bool true)])].filterMap
        (fun kv => feedKeyId kv.1)).Nodup) ∧
    (TaskStatus.mk [(7, JSON.bool false)] (JSON.bool true)).feed_tasks =
      feedTasksSpec [("all_feeds", JSON.obj [("running", JSON.bool true)]),
        ("feed_7", JSON.obj [("running", JSON.bool false)]),
        ("feed_bad", JSON.obj [("running", JSON.bool true)])] ∧
    (TaskStatus.mk [(7, JSON.bool false)] (JSON.bool true)).all_feeds_running =
      allFeedsSpec [("all_feeds", JSON.obj [("running", JSON.bool true)]),
        ("feed_7", JSON.obj [("running", JSON.bool false)]),
        ("feed_bad", JSON.obj [("running", JSON.bool true)])] :=
  ⟨⟨by decide, by decide⟩,
    c2_taskStatus_decode
      [("all_feeds", JSON.obj [("running", JSON.bool true)]),
       ("feed_7", JSON.obj [("running", JSON.bool false)]),
       ("feed_bad", JSON.obj [("running", JSON.bool true)])]
      (TaskStatus.mk [(7, JSON.bool false)] (JSON.bool true))
      (by decide) (by decide) rfl⟩

end RSSReader
